import Mathlib

/-!
Verification of the synthetic TensorFlow benchmark harness
(example/tensorflow/synthetic_benchmark_tf2.py).

The script is embedded shallowly: argument parsing becomes a structure of
defaults, the GPU pinning block and model resolution become pure functions,
the timed loop becomes a function of an elapsed-time oracle, and the numpy
statistics become exact rational (and, for the square root, real) arithmetic.
IEEE NaN, which numpy returns for the mean and standard deviation of an
empty array, is modelled by the value none of an Option type.  Floating
point rounding is abstracted away: arithmetic is exact.
-/

namespace SyntheticBenchmark

/-- Command-line arguments with the argparse defaults of the script. -/
structure Args where
  fp16Allreduce : Bool := false
  model : String := "ResNet50"
  batchSize : Nat := 32
  numWarmupBatches : Nat := 10
  numBatchesPerIter : Nat := 10
  numIters : Nat := 10
  noCuda : Bool := false

/-- args.cuda = not args.no_cuda -/
def Args.cuda (a : Args) : Bool := !a.noCuda

/-- The arguments produced by running the script with no flags. -/
def defaultArgs : Args := {}

/-- The example scenario of the spec: default flags with a single measured
iteration. -/
def benchArgs : Args := { numIters := 1 }

/-- device = if args.cuda then GPU else CPU (the string used in log lines
and for tf.device). -/
def device (a : Args) : String := if a.cuda then "GPU" else "CPU"

/-- Worker identity supplied by bps.init: rank, local rank, group size. -/
structure Bps where
  rank : Nat
  localRank : Nat
  size : Nat

/-- Errors of the Python runtime relevant to the harness: list indexing out
of range raises IndexError, which is the device-assignment failure of the
spec taxonomy. -/
inductive PyErr where
  | indexError

/-- Failure of dynamic model lookup: getattr on the model-zoo namespace
raises when the attribute is absent (ModelNotFoundError of the spec). -/
inductive ModelErr where
  | modelNotFound (name : String)

/-- Python list indexing semantics for l[i]: a negative index counts from
the end, an index out of range raises IndexError. -/
def pyListGet {α : Type} (l : List α) (i : Int) : Except PyErr α :=
  let j : Int := if i < 0 then i + l.length else i
  if h : j.toNat < l.length ∧ 0 ≤ j then
    .ok (l.get ⟨j.toNat, h.1⟩)
  else
    .error .indexError

/-- Result of the startup device-configuration block: the resolved cuda
flag, the device made visible by pinning (none when pinning was skipped),
and whether CUDA_VISIBLE_DEVICES was set to -1. -/
structure InitResult where
  cuda : Bool
  pinned : Option Nat
  cudaHidden : Bool

/-- The GPU setup block of the script: args.cuda = not args.no_cuda; when
cuda holds and the discovered device list is nonempty, the device at index
local_rank is made visible (Python indexing, so an out-of-range local rank
raises); when the list is empty nothing happens; when cuda is off the
devices are hidden through the environment variable. -/
def gpuSetup (noCuda : Bool) (gpus : List Nat) (localRank : Nat) : Except PyErr InitResult :=
  let cuda := !noCuda
  if cuda then
    if gpus.isEmpty then
      .ok ⟨cuda, none, false⟩
    else
      match pyListGet gpus (localRank : Int) with
      | .ok g => .ok ⟨cuda, some g, false⟩
      | .error e => .error e
  else
    .ok ⟨cuda, none, true⟩

/-- Python str.startswith, which is case sensitive prefix matching. -/
def pyStartswith (s p : String) : Bool := p.data.isPrefixOf s.data

/-- Python str.lower restricted to its character-wise action. -/
def pyLower (s : String) : String := ⟨s.data.map Char.toLower⟩

/-- Outcome of model-name resolution: one of the two explicit constructors
or a dynamic lookup in the model-zoo namespace. -/
inductive ResolvedModel where
  | vgg19
  | resnet50
  | zooModel (name : String)

/-- The model resolution chain of the script: startswith vgg19 maps to the
explicit VGG19 constructor, else startswith resnet50 maps to the explicit
ResNet50 constructor, else getattr on the applications namespace, which
fails when the name is absent.  zooHas is the membership predicate of the
model-zoo namespace. -/
def resolveModel (zooHas : String → Bool) (name : String) : Except ModelErr ResolvedModel :=
  if pyStartswith name "vgg19" then .ok .vgg19
  else if pyStartswith name "resnet50" then .ok .resnet50
  else if zooHas name then .ok (.zooModel name)
  else .error (.modelNotFound name)

/-- Element dtypes occurring in the script. -/
inductive DType where
  | float32
  | float64
  | int32
  | int64

/-- Whether a dtype is an integer dtype (tf.random.uniform yields integers
exactly for these). -/
def DType.isInteger : DType → Bool
  | .int32 => true
  | .int64 => true
  | _ => false

/-- Static description of a random tensor: shape, dtype and the half-open
value range [minval, maxval). -/
structure TensorSpec where
  shape : List Nat
  dtype : DType
  minval : ℚ
  maxval : ℚ

/-- tf.random.uniform as a tensor descriptor. -/
def tfRandomUniform (shape : List Nat) (minval maxval : ℚ) (dtype : DType) : TensorSpec :=
  ⟨shape, dtype, minval, maxval⟩

/-- data = tf.random.uniform([args.batch_size, 224, 224, 3]); the defaults
of tf.random.uniform are minval 0, maxval 1 and dtype float32. -/
def data (a : Args) : TensorSpec :=
  tfRandomUniform [a.batchSize, 224, 224, 3] 0 1 .float32

/-- target = tf.random.uniform([args.batch_size, 1], minval=0, maxval=999,
dtype=tf.float64). -/
def target (a : Args) : TensorSpec :=
  tfRandomUniform [a.batchSize, 1] 0 999 .float64

/-- Observable trace of one benchmark_step call: the tensors fed to the
model and loss, and whether the broadcast of model and optimizer variables
was triggered (exactly when first_batch holds). -/
structure StepTrace where
  input : TensorSpec
  label : TensorSpec
  broadcast : Bool

/-- benchmark_step(first_batch): the forward and backward pass always read
the fixed data and target batches; the broadcast from rank 0 runs exactly
when first_batch is true. -/
def benchmarkStep (a : Args) (firstBatch : Bool) : StepTrace :=
  ⟨data a, target a, firstBatch⟩

/-- The sequence of first_batch flags of every benchmark_step invocation of
a run: one call with true, then num_warmup_batches calls with false inside
timeit, then, for each of num_iters measured iterations,
num_batches_per_iter calls with false inside timeit. -/
def runStepFlags (a : Args) : List Bool :=
  [true] ++ List.replicate a.numWarmupBatches false
    ++ ((List.range a.numIters).map (fun _ => List.replicate a.numBatchesPerIter false)).flatten

/-- The raw value of np.mean: sum divided by length. -/
def npMeanVal (l : List ℚ) : ℚ := l.sum / l.length

/-- np.mean; on an empty array numpy returns NaN, modelled as none. -/
def npMean (l : List ℚ) : Option ℚ :=
  if l.isEmpty then none else some (npMeanVal l)

/-- The quantity under the square root in np.std: the mean of the squared
deviations from the mean (population variance, ddof = 0). -/
def npVar (l : List ℚ) : ℚ :=
  npMeanVal (l.map (fun x => (x - npMeanVal l) ^ 2))

/-- np.std: the square root of the population variance; NaN (none) on an
empty array. -/
noncomputable def npStd (l : List ℚ) : Option ℝ :=
  if l.isEmpty then none else some (Real.sqrt (npVar l : ℝ))

/-- img_sec = args.batch_size * args.num_batches_per_iter / time for one
measured iteration with elapsed time t. -/
def imgSecOf (a : Args) (t : ℚ) : ℚ :=
  (a.batchSize : ℚ) * (a.numBatchesPerIter : ℚ) / t

/-- The img_secs list built by the measured phase, given the oracle of
elapsed times of the timed iterations. -/
def imgSecs (a : Args) (times : Nat → ℚ) : List ℚ :=
  (List.range a.numIters).map (fun x => imgSecOf a (times x))

/-- img_sec_mean = np.mean(img_secs). -/
def imgSecMean (l : List ℚ) : Option ℚ := npMean l

/-- img_sec_conf = 1.96 * np.std(img_secs); multiplication by NaN is NaN. -/
noncomputable def imgSecConf (l : List ℚ) : Option ℝ :=
  (npStd l).map (fun s => 1.96 * s)

/-- One line of output of the script, with the data it carries. -/
inductive LogEvent where
  | modelLine (name : String)
  | batchSizeLine (n : Nat)
  | numDevicesLine (dev : String) (size : Nat)
  | warmupLine
  | benchmarkLine
  | iterLine (x : Nat) (imgSec : ℚ) (dev : String)
  | summaryPerDevice (dev : String) (mean : Option ℚ) (conf : Option ℝ)
  | summaryTotal (size : Nat) (dev : String) (mean : Option ℚ) (conf : Option ℝ)

/-- log(s): printed only by the rank 0 worker, every other rank returns
without output. -/
def log (rank : Nat) (e : LogEvent) : List LogEvent :=
  if rank ≠ 0 then [] else [e]

/-- The complete output of one run: the header lines, the warmup and
benchmark banners, one iteration line per measured iteration, and the two
summary lines, every one of them filtered through log.  The group-total
line multiplies the per-device mean and confidence by bps.size, exactly as
the script does. -/
noncomputable def runOutput (a : Args) (b : Bps) (times : Nat → ℚ) : List LogEvent :=
  log b.rank (.modelLine a.model)
  ++ log b.rank (.batchSizeLine a.batchSize)
  ++ log b.rank (.numDevicesLine (device a) b.size)
  ++ log b.rank .warmupLine
  ++ log b.rank .benchmarkLine
  ++ ((List.range a.numIters).map
        (fun x => log b.rank (.iterLine x (imgSecOf a (times x)) (device a)))).flatten
  ++ log b.rank (.summaryPerDevice (device a)
        (imgSecMean (imgSecs a times)) (imgSecConf (imgSecs a times)))
  ++ log b.rank (.summaryTotal b.size (device a)
        ((imgSecMean (imgSecs a times)).map (fun m => (b.size : ℚ) * m))
        ((imgSecConf (imgSecs a times)).map (fun c => (b.size : ℝ) * c)))

/-- Spec formulation: the arithmetic mean of a sample sequence. -/
def specArithMean (l : List ℚ) : ℚ := l.sum / l.length

/-- Spec formulation: the population variance, the sum of squared
deviations from the arithmetic mean divided by the number of samples. -/
def specPopVariance (l : List ℚ) : ℚ :=
  (l.map (fun x => (x - specArithMean l) ^ 2)).sum / l.length

/-- Spec formulation: the population standard deviation. -/
noncomputable def specPopStddev (l : List ℚ) : ℝ :=
  Real.sqrt (specPopVariance l : ℝ)

/-- C5 counterexample: the name VGG19 is a case-insensitive match of the
alias vgg19 (its lowercasing starts with vgg19), yet the script resolves it
dynamically, not to the explicit VGG19 constructor: with a zoo that lacks
the name, resolution fails with ModelNotFoundError.  Resolution is case
sensitive, refuting the case-insensitivity asserted by the claim. -/
theorem model_resolution_case_sensitive_cex :
    pyStartswith (pyLower "VGG19") "vgg19" = true
    ∧ resolveModel (fun _ => false) "VGG19" = .error (.modelNotFound "VGG19") :=
  ⟨rfl, rfl⟩

/-- C5 (amended): model-name resolution maps any name that starts, case
sensitively, with vgg19 or resnet50 to the explicit VGG19 or ResNet50
constructor respectively; every other name is resolved dynamically against
the model-zoo namespace and fails with ModelNotFoundError when absent. -/
theorem model_resolution_policy (zooHas : String → Bool) (name : String) :
    (pyStartswith name "vgg19" = true → resolveModel zooHas name = .ok .vgg19)
    ∧ (pyStartswith name "vgg19" = false → pyStartswith name "resnet50" = true →
        resolveModel zooHas name = .ok .resnet50)
    ∧ (pyStartswith name "vgg19" = false → pyStartswith name "resnet50" = false →
        zooHas name = true → resolveModel zooHas name = .ok (.zooModel name))
    ∧ (pyStartswith name "vgg19" = false → pyStartswith name "resnet50" = false →
        zooHas name = false → resolveModel zooHas name = .error (.modelNotFound name)) := by
  refine ⟨fun h1 => ?_, fun h1 h2 => ?_, fun h1 h2 h3 => ?_, fun h1 h2 h3 => ?_⟩ <;>
    simp [resolveModel, h1] <;> simp [h2] <;> simp [h3]

/-- Witness for C5: the name vgg19_bn starts with vgg19 and resolves to the
explicit VGG19 constructor, not through the zoo. -/
theorem model_resolution_policy_witness :
    pyStartswith "vgg19_bn" "vgg19" = true
    ∧ resolveModel (fun _ => false) "vgg19_bn" = .ok .vgg19 :=
  ⟨rfl, (model_resolution_policy (fun _ => false) "vgg19_bn").1 rfl⟩

/-- C7 counterexample: with zero visible accelerator devices and local rank
5 (so local rank is at least the device count), the setup block raises
nothing: the guard on a nonempty device list skips the assignment
entirely, returning successfully with no device pinned. -/
theorem device_assign_empty_cex :
    ([] : List Nat).length ≤ 5
    ∧ gpuSetup false [] 5 = .ok ⟨true, none, false⟩ :=
  ⟨by simp, rfl⟩

/-- C7 (amended): in accelerator mode with at least one visible device, a
local rank at or beyond the device count makes device assignment raise an
IndexError (the DeviceAssignmentError of the spec taxonomy) rather than
wrap around or pick device 0. -/
theorem device_assign_out_of_range_raises (gpus : List Nat) (lr : Nat)
    (hne : gpus ≠ []) (hlr : gpus.length ≤ lr) :
    gpuSetup false gpus lr = .error .indexError := by
  have he : gpus.isEmpty = false := by simpa [List.isEmpty_iff] using hne
  have hlt : ¬ ((lr : Int) < 0) := by omega
  have hget : pyListGet gpus (lr : Int) = .error .indexError := by
    simp only [pyListGet, if_neg hlt]
    rw [dif_neg]
    intro h
    rw [Int.toNat_natCast] at h
    omega
  simp [gpuSetup, he, hget]

/-- Witness for C7 (amended): one visible device, local rank 1. -/
theorem device_assign_out_of_range_raises_witness :
    (([0] : List Nat) ≠ [] ∧ ([0] : List Nat).length ≤ 1)
    ∧ gpuSetup false [0] 1 = .error .indexError :=
  ⟨⟨by simp, by simp⟩, device_assign_out_of_range_raises [0] 1 (by simp) (by simp)⟩

/-- C8 counterexample: the synthetic label batch is built with dtype
float64, which is not an integer dtype, refuting the claim that the labels
are uniformly random integers. -/
theorem target_dtype_cex :
    (target defaultArgs).dtype = DType.float64
    ∧ DType.isInteger (target defaultArgs).dtype = false :=
  ⟨rfl, rfl⟩

/-- C8 (amended): the fixed synthetic label batch is a uniformly random
float64 tensor with values in the half-open range [0, 999) and shape
[batch_size, 1]; the fixed input batch is a uniformly random float32
tensor in [0, 1) of shape [batch_size, 224, 224, 3]; every benchmark step,
whatever its first_batch flag, reads the same two tensors. -/
theorem synthetic_batches_spec (a : Args) :
    target a = ⟨[a.batchSize, 1], .float64, 0, 999⟩
    ∧ data a = ⟨[a.batchSize, 224, 224, 3], .float32, 0, 1⟩
    ∧ ∀ f1 f2 : Bool, (benchmarkStep a f1).input = (benchmarkStep a f2).input
      ∧ (benchmarkStep a f1).label = (benchmarkStep a f2).label :=
  ⟨rfl, rfl, fun _ _ => ⟨rfl, rfl⟩⟩

/-- C9 counterexample: with the no-accelerator flag not given and zero
accelerator devices discovered, the resolved mode stays accelerator: the
setup block returns cuda true and the device string used by the run is
GPU, not CPU.  The device mode never consults the discovered device
count. -/
theorem device_mode_zero_gpus_cex :
    defaultArgs.noCuda = false
    ∧ gpuSetup defaultArgs.noCuda [] 0 = .ok ⟨true, none, false⟩
    ∧ device defaultArgs = "GPU" :=
  ⟨rfl, rfl, rfl⟩

/-- C9 (amended): the resolved device mode is accelerator-disabled exactly
when the no-accelerator flag is given; discovering zero accelerator
devices never flips the mode, it only makes the setup block skip pinning
and return successfully. -/
theorem device_mode_flag_only (a : Args) (gpus : List Nat) (lr : Nat) :
    (device a = "CPU" ↔ a.noCuda = true)
    ∧ (gpus = [] → gpuSetup a.noCuda gpus lr = .ok ⟨a.cuda, none, a.noCuda⟩) := by
  constructor
  · cases h : a.noCuda <;> simp [device, Args.cuda, h]
  · rintro rfl
    cases h : a.noCuda <;> simp [gpuSetup, Args.cuda, h]

/-- Witness for C9 (amended): default flags, empty device list. -/
theorem device_mode_flag_only_witness :
    gpuSetup defaultArgs.noCuda [] 3 = .ok ⟨defaultArgs.cuda, none, defaultArgs.noCuda⟩ :=
  (device_mode_flag_only defaultArgs [] 3).2 rfl

/-- Flattening a list of empty lists gives the empty list. -/
theorem flatten_map_nil {α β : Type} (l : List α) :
    (l.map (fun _ => ([] : List β))).flatten = [] := by
  induction l with
  | nil => rfl
  | cons x xs ih =>
    simp only [List.map_cons, List.flatten_cons, List.nil_append]
    exact ih

/-- Flattening equal-length blocks of a repeated element. -/
theorem flatten_replicate_replicate (n m : Nat) :
    (List.replicate n (List.replicate m false)).flatten = List.replicate (n * m) false := by
  induction n with
  | zero => simp
  | succ k ih =>
    rw [List.replicate_succ, List.flatten_cons, ih, ← List.replicate_add]
    congr 1
    ring

/-- The first_batch flags of a run form one true followed by only false:
the warm-up repetitions and every measured step pass false. -/
theorem runStepFlags_eq (a : Args) :
    runStepFlags a =
      true :: List.replicate (a.numWarmupBatches + a.numIters * a.numBatchesPerIter) false := by
  unfold runStepFlags
  rw [List.map_const', List.length_range, flatten_replicate_replicate,
    List.append_assoc, ← List.replicate_add]
  rfl

/-- C4: over the whole run, the benchmark step broadcasts the model and
optimizer variables exactly at the first invocation, the one made with
first_batch true at the start of warm-up; no later invocation, in warm-up
or in the measured phase, broadcasts again. -/
theorem broadcast_only_first_step (a : Args) (i : Nat) :
    (((runStepFlags a).map (fun f => (benchmarkStep a f).broadcast))[i]? = some true) ↔ i = 0 := by
  rw [runStepFlags_eq]
  cases i with
  | zero => simp [benchmarkStep]
  | succ k =>
    simp only [List.map_cons, List.getElem?_cons_succ, List.map_replicate]
    have hb : (benchmarkStep a false).broadcast = false := rfl
    rw [hb]
    constructor
    · intro h
      exfalso
      have hm : true ∈ List.replicate
          (a.numWarmupBatches + a.numIters * a.numBatchesPerIter) false :=
        List.getElem?_mem h
      have := List.eq_of_mem_replicate hm
      simp at this
    · intro h
      exact absurd h (Nat.succ_ne_zero k)

/-- Witness for C4 at concrete indices: with default arguments, index 0
broadcasts and index 1 does not. -/
theorem broadcast_only_first_step_witness :
    (((runStepFlags defaultArgs).map (fun f => (benchmarkStep defaultArgs f).broadcast))[0]?
        = some true)
    ∧ ¬ (((runStepFlags defaultArgs).map
        (fun f => (benchmarkStep defaultArgs f).broadcast))[1]? = some true) :=
  ⟨(broadcast_only_first_step defaultArgs 0).2 rfl,
   fun h => Nat.one_ne_zero ((broadcast_only_first_step defaultArgs 1).1 h)⟩

/-- C6: a worker whose rank is not 0 produces no log output at all: the
whole run output of such a worker is empty, whatever the arguments, group
size and elapsed times. -/
theorem nonzero_rank_silent (a : Args) (b : Bps) (times : Nat → ℚ) (hb : b.rank ≠ 0) :
    runOutput a b times = [] := by
  simp [runOutput, log, hb, flatten_map_nil]

/-- Witness for C6: rank 1 of a two-worker group is silent. -/
theorem nonzero_rank_silent_witness :
    (Bps.mk 1 0 2).rank ≠ 0
    ∧ runOutput defaultArgs (Bps.mk 1 0 2) (fun _ => 1) = [] :=
  ⟨by decide, nonzero_rank_silent defaultArgs (Bps.mk 1 0 2) (fun _ => 1) (by decide)⟩

/-- The variance under the square root of np.std coincides with the
population variance of the spec. -/
theorem npVar_eq_specPopVariance (l : List ℚ) : npVar l = specPopVariance l := by
  unfold npVar specPopVariance npMeanVal specArithMean
  rw [List.length_map]

/-- C1: the throughput of a measured iteration, as stored in img_secs and
as logged, is batch_size times num_batches_per_iter divided by the elapsed
time of the tight loop of that iteration. -/
theorem img_sec_formula (a : Args) (b : Bps) (times : Nat → ℚ) (x : Nat)
    (hx : x < a.numIters) (_ht : 0 < times x) (hb : b.rank = 0) :
    (imgSecs a times)[x]? = some ((a.batchSize : ℚ) * (a.numBatchesPerIter : ℚ) / times x)
    ∧ LogEvent.iterLine x ((a.batchSize : ℚ) * (a.numBatchesPerIter : ℚ) / times x) (device a)
        ∈ runOutput a b times := by
  constructor
  · simp [imgSecs, List.getElem?_range, hx, imgSecOf]
  · have hmem : LogEvent.iterLine x
        ((a.batchSize : ℚ) * (a.numBatchesPerIter : ℚ) / times x) (device a)
        ∈ ((List.range a.numIters).map
            (fun y => log b.rank (.iterLine y (imgSecOf a (times y)) (device a)))).flatten := by
      refine List.mem_flatten.2
        ⟨[LogEvent.iterLine x ((a.batchSize : ℚ) * (a.numBatchesPerIter : ℚ) / times x)
            (device a)], ?_, List.mem_singleton_self _⟩
      exact List.mem_map.2 ⟨x, List.mem_range.2 hx, by simp [log, hb, imgSecOf]⟩
    simp only [runOutput, List.mem_append]
    tauto

/-- Witness for C1: the example scenario, batch size 32, ten batches per
iteration, one iteration, elapsed time 2, gives the logged value 160. -/
theorem img_sec_formula_witness :
    (0 < benchArgs.numIters ∧ (0 : ℚ) < 2 ∧ (Bps.mk 0 0 1).rank = 0)
    ∧ (imgSecs benchArgs (fun _ => 2))[0]?
        = some ((benchArgs.batchSize : ℚ) * (benchArgs.numBatchesPerIter : ℚ) / 2)
    ∧ LogEvent.iterLine 0
        ((benchArgs.batchSize : ℚ) * (benchArgs.numBatchesPerIter : ℚ) / 2) (device benchArgs)
        ∈ runOutput benchArgs (Bps.mk 0 0 1) (fun _ => 2)
    ∧ (imgSecs benchArgs (fun _ => 2))[0]? = some 160 := by
  have h := img_sec_formula benchArgs (Bps.mk 0 0 1) (fun _ => 2) 0
      (by norm_num [benchArgs]) (by norm_num) rfl
  refine ⟨⟨by norm_num [benchArgs], by norm_num, rfl⟩, h.1, h.2, ?_⟩
  rw [h.1]
  show some ((32 : ℚ) * 10 / 2) = some 160
  norm_num

/-- C2: on a nonempty sample sequence the reported mean is the arithmetic
mean and the reported confidence half-width is 1.96 times the population
standard deviation of the samples. -/
theorem summary_stats_match_spec (l : List ℚ) (h : l ≠ []) :
    imgSecMean l = some (specArithMean l)
    ∧ imgSecConf l = some (1.96 * specPopStddev l) := by
  have he : l.isEmpty = false := by simpa [List.isEmpty_iff] using h
  constructor
  · simp [imgSecMean, npMean, he, npMeanVal, specArithMean]
  · simp [imgSecConf, npStd, he, specPopStddev, npVar_eq_specPopVariance]

/-- Witness for C2: the samples 2 and 4 have mean 3, population standard
deviation 1 and confidence half-width 1.96. -/
theorem summary_stats_match_spec_witness :
    (([2, 4] : List ℚ) ≠ [])
    ∧ imgSecMean [2, 4] = some (specArithMean [2, 4])
    ∧ imgSecConf [2, 4] = some (1.96 * specPopStddev [2, 4])
    ∧ imgSecMean [2, 4] = some 3
    ∧ imgSecConf [2, 4] = some 1.96 := by
  have h := summary_stats_match_spec [2, 4] (by simp)
  refine ⟨by simp, h.1, h.2, ?_, ?_⟩
  · norm_num [imgSecMean, npMean, npMeanVal]
  · have hv : npVar [2, 4] = 1 := by norm_num [npVar, npMeanVal]
    simp [imgSecConf, npStd, hv, Real.sqrt_one]

/-- C3: the group-total summary line carries exactly the per-device mean
and confidence half-width scaled by the group size, for every
configuration, group and elapsed-time history. -/
theorem group_aggregate_scaled (a : Args) (b : Bps) (times : Nat → ℚ) (hb : b.rank = 0) :
    ∃ m c, LogEvent.summaryPerDevice (device a) m c ∈ runOutput a b times
      ∧ LogEvent.summaryTotal b.size (device a)
          (m.map (fun v => (b.size : ℚ) * v)) (c.map (fun v => (b.size : ℝ) * v))
        ∈ runOutput a b times := by
  refine ⟨imgSecMean (imgSecs a times), imgSecConf (imgSecs a times), ?_, ?_⟩ <;>
    simp [runOutput, log, hb]

/-- Witness for C3: a four-worker group with default arguments. -/
theorem group_aggregate_scaled_witness :
    (Bps.mk 0 0 4).rank = 0
    ∧ ∃ m c, LogEvent.summaryPerDevice (device defaultArgs) m c
          ∈ runOutput defaultArgs (Bps.mk 0 0 4) (fun _ => 1)
        ∧ LogEvent.summaryTotal (Bps.mk 0 0 4).size (device defaultArgs)
            (m.map (fun v => ((Bps.mk 0 0 4).size : ℚ) * v))
            (c.map (fun v => ((Bps.mk 0 0 4).size : ℝ) * v))
          ∈ runOutput defaultArgs (Bps.mk 0 0 4) (fun _ => 1) :=
  ⟨rfl, group_aggregate_scaled defaultArgs (Bps.mk 0 0 4) (fun _ => 1) rfl⟩

/-- C10: with zero measured iterations the sample list is empty, the run
executes no measured step and logs no iteration line, the mean and the
confidence half-width are NaN (none), and the two summary lines are still
printed, carrying NaN, with no error raised. -/
theorem zero_iters_summary (a : Args) (b : Bps) (times : Nat → ℚ)
    (h0 : a.numIters = 0) (hb : b.rank = 0) :
    imgSecs a times = []
    ∧ runStepFlags a = true :: List.replicate a.numWarmupBatches false
    ∧ imgSecMean [] = none ∧ imgSecConf [] = none
    ∧ (∀ x v d, LogEvent.iterLine x v d ∉ runOutput a b times)
    ∧ LogEvent.summaryPerDevice (device a) none none ∈ runOutput a b times
    ∧ LogEvent.summaryTotal b.size (device a) none none ∈ runOutput a b times := by
  have hs : imgSecs a times = [] := by simp [imgSecs, h0]
  refine ⟨hs, ?_, rfl, rfl, ?_, ?_, ?_⟩
  · rw [runStepFlags_eq, h0]
    simp
  · intro x v d
    simp [runOutput, log, hb, h0, hs, imgSecMean, npMean, imgSecConf, npStd]
  · simp [runOutput, log, hb, h0, hs, imgSecMean, npMean, imgSecConf, npStd]
  · simp [runOutput, log, hb, h0, hs, imgSecMean, npMean, imgSecConf, npStd]

/-- Witness for C10: zero iterations, one worker of rank 0. -/
theorem zero_iters_summary_witness :
    (({ numIters := 0 } : Args).numIters = 0 ∧ (Bps.mk 0 0 1).rank = 0)
    ∧ (imgSecs { numIters := 0 } (fun _ => 1) = []
      ∧ runStepFlags { numIters := 0 }
          = true :: List.replicate ({ numIters := 0 } : Args).numWarmupBatches false
      ∧ imgSecMean [] = none ∧ imgSecConf [] = none
      ∧ (∀ x v d, LogEvent.iterLine x v d
          ∉ runOutput { numIters := 0 } (Bps.mk 0 0 1) (fun _ => 1))
      ∧ LogEvent.summaryPerDevice (device { numIters := 0 }) none none
          ∈ runOutput { numIters := 0 } (Bps.mk 0 0 1) (fun _ => 1)
      ∧ LogEvent.summaryTotal (Bps.mk 0 0 1).size (device { numIters := 0 }) none none
          ∈ runOutput { numIters := 0 } (Bps.mk 0 0 1) (fun _ => 1)) :=
  ⟨⟨rfl, rfl⟩, zero_iters_summary { numIters := 0 } (Bps.mk 0 0 1) (fun _ => 1) rfl rfl⟩

end SyntheticBenchmark
